import Mathlib

/-!
Shallow embedding of the animationai repository (a browser front end that
orchestrates sequential AI image-generation calls into an animation).

Sources embedded:
- src/services/imageService.ts : getAI, enhancePrompt, base64ToPart,
  generateFrame, generateStoryboard, generateAnimationFrames (the
  storyboard-driven variant), placed in namespace ImageService where the
  two variants differ;
- src/unnamed/part_000 : the alternate sequential variant of
  generateAnimationFrames (same getAI / base64ToPart / generateFrame code,
  different loop body), placed in namespace Part000;
- src/App.tsx : the AnimationPlayer timer period and the handleDownload
  GIF-export path.

Remote services are modelled as oracles: the parsed storyboard response and
the per-call image-generation response are inputs (fields of Env), and the
run result records, besides the returned value, the list of remote calls
the orchestrator issued.  Promise rejection / thrown errors are modelled
with Except.  onProgress callbacks and console logging are side effects
with no influence on results or remote calls; they are not modelled.
-/

/-- One part of an image-generation response
(`response.candidates[0].content.parts` in the source): a part either
carries inline image data or is some other part (e.g. text). -/
inductive ResponsePart where
  | inlineData (data : String)
  | textPart (text : String)
deriving Repr, DecidableEq

/-- The inline image data of a response part, when present. -/
def ResponsePart.inlineOf : ResponsePart → Option String
  | .inlineData d => some d
  | .textPart _ => none

/-- A JSON value as far as the storyboard validation inspects it: a string,
or some non-string value. -/
inductive JVal where
  | jstr (s : String)
  | jother
deriving Repr, DecidableEq

/-- One element of the parsed `parsedJson.storyboard` array.  Each field is
`none` when absent in the JSON object.  `technical_notes` is required by the
response schema but never read by the validation code. -/
structure SBFrame where
  technical_notes : Option JVal
  frame_description : Option JVal
deriving Repr, DecidableEq

/-- One image-generation call as issued by the orchestrator loop: the
composed prompt and the optional reference frame (a data URL) passed to
generateFrame. -/
structure GenCall where
  prompt : String
  ref : Option String
deriving Repr, DecidableEq

/-- A remote call made by generateAnimationFrames: the storyboard planning
call (storyboard variant only), or an image-generation call.
generateAnimationFrames never invokes the prompt refiner (enhancePrompt),
so no refine constructor can occur in its trace. -/
inductive RemoteCall where
  | storyboardCall (motionPrompt : String) (frameCount : Int)
  | frameCall (prompt : String) (ref : Option String)
deriving Repr, DecidableEq

/-- View a generation call as a remote call. -/
def GenCall.toRemote (c : GenCall) : RemoteCall := .frameCall c.prompt c.ref

/-- The image-generation calls of a trace, in order. -/
def gensOf : List RemoteCall → List GenCall
  | [] => []
  | .frameCall p r :: rest => ⟨p, r⟩ :: gensOf rest
  | .storyboardCall _ _ :: rest => gensOf rest

/-- Environment of one generateAnimationFrames run: the API-key environment
variable, whether the module-level aiInstance was already initialized, the
parsed storyboard response (`none` models a response whose `storyboard`
field is absent or not an array), and the response to the image-generation
call issued with loop index i. -/
structure Env where
  apiKey : Option String
  aiInited : Bool
  storyboardResp : Option (List SBFrame)
  frameResp : Nat → List ResponsePart

/-- Whether an Except is a success. -/
def exceptIsOk : Except ε α → Bool
  | .ok _ => true
  | .error _ => false

/-- src/services/imageService.ts lines 5-14 (identical in part_000): the
lazily initialized client.  `if (!apiKey)` is falsy for both an unset and
an empty environment variable.  Only success/failure is relevant to the
callers, so the returned client is modelled as Unit. -/
def getAI (apiKey : Option String) (aiInited : Bool) : Except String Unit :=
  if aiInited then .ok ()
  else
    match apiKey with
    | none => .error "API key is not configured. Please set the API_KEY environment variable."
    | some k =>
        if k.isEmpty then
          .error "API key is not configured. Please set the API_KEY environment variable."
        else .ok ()

/-- imageService.ts lines 22-44: enhancePrompt returns the trimmed response
text, or a generic failure when the remote call fails (`none` response). -/
def enhancePrompt (resp : Option String) : Except String String :=
  match resp with
  | some t => .ok t.trim
  | none => .error "Failed to enhance prompt. The AI may be experiencing issues."

/-- Does `p` start with `pat` (character lists)? -/
def startsWithL : List Char → List Char → Bool
  | _, [] => true
  | [], _ :: _ => false
  | c :: cs, p :: ps => c = p && startsWithL cs ps

/-- Does `s` contain `pat` as a contiguous run (character lists)?  Models
JavaScript String.prototype.includes. -/
def containsL : List Char → List Char → Bool
  | [], pat => pat.isEmpty
  | c :: cs, pat => startsWithL (c :: cs) pat || containsL cs pat

/-- JavaScript s.includes(pat) on strings. -/
def strContains (s pat : String) : Bool := containsL s.data pat.data

/-- The capture of the regex fragment `(.*?);` : the characters before the
first semicolon, or no match when no semicolon occurs. -/
def captureTo : List Char → Option (List Char)
  | [] => none
  | c :: rest => if c = ';' then some [] else (captureTo rest).map (fun l => c :: l)

/-- The capture of `/:(.*?);/` on a character list: the regex matches at
the first colon followed (anywhere later) by a semicolon.  When the first
colon found has no semicolon after it, no later start position can match
either (any later semicolon would also be after this colon), so the whole
match fails. -/
def mimeCapture : List Char → Option (List Char)
  | [] => none
  | c :: rest => if c = ':' then captureTo rest else mimeCapture rest

/-- imageService.ts line 57: `header.match(/:(.*?);/)?.[1] || 'image/png'`.
A missing match and an empty capture (falsy) both default to image/png. -/
def mimeOf (header : String) : String :=
  match mimeCapture header.data with
  | some cs => if cs.isEmpty then "image/png" else String.mk cs
  | none => "image/png"

/-- JavaScript String.prototype.split(',') on a character list: the
comma-separated segments, in order.  Never returns an empty list (an empty
input gives one empty segment, as in JS). -/
def splitCommaL : List Char → List (List Char)
  | [] => [[]]
  | c :: rest =>
      if c = ',' then [] :: splitCommaL rest
      else
        match splitCommaL rest with
        | [] => [[c]]
        | seg :: segs => (c :: seg) :: segs

/-- JavaScript split on strings, with a comma separator. -/
def splitComma (s : String) : List String := (splitCommaL s.data).map String.mk

/-- imageService.ts lines 52-59 (identical in part_000): split the data URL
on commas, take segment 0 as header and segment 1 as data
(`const [header, data] = base64Data.split(',')`), and fail when the data
segment is absent or either segment is empty (both falsy in JS).  Returns
the (data, mimeType) pair of the inlineData part. -/
def base64ToPart (base64Data : String) : Except String (String × String) :=
  let segs := splitComma base64Data
  let header := segs.getD 0 ""
  match segs.get? 1 with
  | none => .error "Invalid base64 data URL format."
  | some data =>
      if header.isEmpty || data.isEmpty then .error "Invalid base64 data URL format."
      else .ok (data, mimeOf header)

/-- imageService.ts lines 83-88 (identical in part_000): scan the response
parts in order and return the first inline image re-encoded as a PNG data
URL; when no part has inline data, fail naming the prompt. -/
def extractImage (parts : List ResponsePart) (prompt : String) : Except String String :=
  match parts with
  | [] => .error ("Image generation failed for prompt: \"" ++ prompt ++ "\"")
  | .inlineData d :: _ => .ok ("data:image/png;base64," ++ d)
  | .textPart _ :: rest => extractImage rest prompt

/-- imageService.ts lines 68-89 (identical in part_000): generateFrame.
When a reference frame is supplied it is decoded by base64ToPart (whose
failure propagates); the remote response `resp` is the oracle input; the
result is the first inline image of the response or an error naming the
prompt. -/
def generateFrame (resp : List ResponsePart) (prompt : String)
    (referenceFrameB64 : Option String) : Except String String :=
  match referenceFrameB64 with
  | none => extractImage resp prompt
  | some r =>
      match base64ToPart r with
      | .error e => .error e
      | .ok _ => extractImage resp prompt

/-- imageService.ts line 162: `storyboardFrames.length || 'none'` — a zero
length is falsy in JS, so the message says "none" instead of 0. -/
def lengthOrNone (n : Nat) : String := if n = 0 then "none" else toString n

/-- Is a storyboard entry's frame_description missing, not a string, or
empty — exactly the condition of imageService.ts line 166? -/
def badDescription (f : SBFrame) : Bool :=
  match f.frame_description with
  | some (.jstr s) => s.isEmpty
  | _ => true

/-- imageService.ts lines 165-170: `.map` over the storyboard entries,
throwing at the first entry whose frame_description is not a non-empty
string. -/
def mapDescriptions : List SBFrame → Except String (List String)
  | [] => .ok []
  | f :: rest =>
      match f.frame_description with
      | some (.jstr s) =>
          if s.isEmpty then
            .error "Storyboard generation failed: A frame description was missing or not a string."
          else (mapDescriptions rest).map (fun ds => s :: ds)
      | _ => .error "Storyboard generation failed: A frame description was missing or not a string."

/-- imageService.ts lines 160-172, the body of generateStoryboard's try
block after parsing, on an actual array: the length check (line 160) with
its descriptive error (line 162), then the description mapping. -/
def storyboardValidate (frameCount : Int) (storyboardFrames : List SBFrame) :
    Except String (List String) :=
  if (storyboardFrames.length : Int) = frameCount then
    mapDescriptions storyboardFrames
  else
    .error ("Storyboard generation failed: AI returned an invalid format or wrong number of frames. Expected "
      ++ toString frameCount ++ ", got " ++ lengthOrNone storyboardFrames.length ++ ".")

/-- imageService.ts lines 100-181: generateStoryboard.  The whole body,
validation included, sits in one try whose catch (lines 174-180) replaces
any error by a generic message: the JSON-format message when the caught
message contains "JSON.parse", the generic planner-failure message
otherwise.  A `none` response models `parsedJson.storyboard` being absent
or not an array: the Array.isArray branch is taken and (for an absent
field) even building the line-162 message throws a TypeError; either way
the catch turns it into the generic message, which does not contain
"JSON.parse". -/
def ImageService.generateStoryboard (resp : Option (List SBFrame)) (frameCount : Int) :
    Except String (List String) :=
  match resp with
  | none => .error "Failed to generate animation storyboard. The planning AI may be experiencing issues."
  | some storyboardFrames =>
      match storyboardValidate frameCount storyboardFrames with
      | .ok ds => .ok ds
      | .error msg =>
          if strContains msg "JSON.parse" then
            .error "Failed to generate animation storyboard. The planning AI returned an invalid JSON format."
          else
            .error "Failed to generate animation storyboard. The planning AI may be experiencing issues."

/-- imageService.ts line 200 and part_000 line 108: the shared style
instruction prefixed to every frame prompt. -/
def styleInstruction : String :=
  "Style: A raw, sketchy anime keyframe (genga). Emphasize dynamic, messy pencil lines and visible construction lines, capturing an energetic, in-progress feel. Plain white background."

/-- imageService.ts lines 217-226: the prompt composed for loop index i
(0-based) in the storyboard-driven variant.  The storyboard has exactly
frameCount entries when this is reached (validated), so the getD default is
never taken for the indices the loop uses. -/
def ImageService.framePrompt (frameCount : Int) (storyboard : List String) (i : Nat) : String :=
  let storyboardPrompt := storyboard.getD i ""
  if i = 0 then
    styleInstruction ++ " This is the **first frame** of a " ++ toString frameCount
      ++ "-frame animation. The detailed instruction for this frame is: \"" ++ storyboardPrompt ++ "\"."
  else
    styleInstruction ++ " This is frame " ++ toString (i + 1) ++ " of a " ++ toString frameCount
      ++ "-frame animation. Using the provided image as the immediate previous frame, generate the very next logical step in the action. The precise instruction for this frame is: \""
      ++ storyboardPrompt ++ "\". Ensure the transition is smooth and physically plausible."

/-- part_000 lines 120-137: the prompt composed for loop index i (1-based)
in the sequential variant: first frame, final frame (only when
frameCount > 1), or intermediate frame. -/
def Part000.framePrompt (motionPrompt : String) (frameCount : Int) (i : Nat) : String :=
  if i = 1 then
    styleInstruction ++ " This is the **first frame** of a " ++ toString frameCount
      ++ "-frame animation. Depict the **absolute beginning** of the motion: \"" ++ motionPrompt
      ++ "\". The scene should be static, right before the main action starts."
  else if (i : Int) = frameCount ∧ 1 < frameCount then
    styleInstruction ++ " This is the **final frame** of a " ++ toString frameCount
      ++ "-frame animation of \"" ++ motionPrompt
      ++ "\". Using the provided image as the immediate previous frame, create the **absolute conclusion** of the motion. The action should be fully completed and settled."
  else
    styleInstruction ++ " This is frame " ++ toString i ++ " of a " ++ toString frameCount
      ++ "-frame animation of \"" ++ motionPrompt ++ "\".\n\n**CRITICAL INSTRUCTION FOR AN EXPERT ANIMATOR:** Your task is to generate the very next logical step in the action, using the provided image as the immediate previous frame. The movement MUST be clear, purposeful, and dynamicâ€”avoiding any static or idle appearance.\n\n1.  **Analyze Motion Arc:** Deconstruct the core action: \""
      ++ motionPrompt
      ++ "\". Consider the physics, momentum, and the primary arc of movement.\n2.  **Calculate Next Pose:** For this specific frame, advance the subject\x27s pose significantly. Think in terms of angles, trigonometry, and kinetics. For instance, if a character is \"drawing a sword,\" calculate the new angle of the elbow, the rotation of the shoulder, and the precise new position of the hand and blade.\n3.  **Generate with Precision:** Create a frame that flawlessly illustrates this calculated next step. The progression from the previous frame must be obvious, smooth, and contribute meaningfully to the overall animation\x27s energy and flow."

/-- The shared frame-generation loop of both variants (imageService.ts
lines 211-231, part_000 lines 115-142): starting at loop index i with r
iterations left and `prev` as the previousFrame variable, issue one
generateFrame call per iteration with the composed prompt `mkP i`, chain
each result as the next reference, and stop at the first failure.  Returns
the accumulated frames (discarded on failure, as the thrown error discards
allFrames) and the generation calls issued. -/
def genLoop (fr : Nat → List ResponsePart) (mkP : Nat → String) :
    Nat → Nat → Option String → Except String (List String) × List GenCall
  | _, 0, _ => (.ok [], [])
  | i, r + 1, prev =>
      let p := mkP i
      match generateFrame (fr i) p prev with
      | .error e => (.error e, [⟨p, prev⟩])
      | .ok f =>
          let rest := genLoop fr mkP (i + 1) r (some f)
          (rest.1.map (fun l => f :: l), ⟨p, prev⟩ :: rest.2)

/-- imageService.ts lines 193-243: the storyboard-driven
generateAnimationFrames.  getAI runs before the frameCount guard; the
storyboard call and the frame loop sit in a try whose catch (lines
236-242) prefixes "Failed to generate animation: " to the caught message.
Returns the result and the trace of remote calls issued. -/
def ImageService.generateAnimationFrames (env : Env) (motionPrompt : String) (frameCount : Int) :
    Except String (List String) × List RemoteCall :=
  match getAI env.apiKey env.aiInited with
  | .error e => (.error e, [])
  | .ok _ =>
      if frameCount < 1 then (.ok [], [])
      else
        match ImageService.generateStoryboard env.storyboardResp frameCount with
        | .error e =>
            (.error ("Failed to generate animation: " ++ e), [.storyboardCall motionPrompt frameCount])
        | .ok storyboard =>
            match genLoop env.frameResp (ImageService.framePrompt frameCount storyboard) 0
              frameCount.toNat none with
            | (.error e, calls) =>
                (.error ("Failed to generate animation: " ++ e),
                 .storyboardCall motionPrompt frameCount :: calls.map GenCall.toRemote)
            | (.ok frames, calls) =>
                (.ok frames, .storyboardCall motionPrompt frameCount :: calls.map GenCall.toRemote)

/-- part_000 lines 101-154: the sequential generateAnimationFrames.  Same
getAI-first structure and frameCount guard, no storyboard call, loop index
1-based, same catch prefix. -/
def Part000.generateAnimationFrames (env : Env) (motionPrompt : String) (frameCount : Int) :
    Except String (List String) × List RemoteCall :=
  match getAI env.apiKey env.aiInited with
  | .error e => (.error e, [])
  | .ok _ =>
      if frameCount < 1 then (.ok [], [])
      else
        match genLoop env.frameResp (Part000.framePrompt motionPrompt frameCount) 1
          frameCount.toNat none with
        | (.error e, calls) => (.error ("Failed to generate animation: " ++ e), calls.map GenCall.toRemote)
        | (.ok frames, calls) => (.ok frames, calls.map GenCall.toRemote)

/-- App.tsx line 21: the playback timer period of AnimationPlayer. -/
def intervalDuration (speed : Int) : Int := 1100 - speed

/-- Outcome of the export path: the (image, delay) pairs handed to the GIF
encoder via gif.addFrame, whether the browser download was triggered, and
the error message shown, if any. -/
structure DownloadOutcome where
  encoderFrames : List (String × Int)
  downloadTriggered : Bool
  errorMsg : Option String
deriving Repr, DecidableEq

/-- App.tsx lines 128-182: handleDownload.  Guard: missing frames or a
missing worker script short-circuit with a message.  Every frame image is
loaded (Promise.all: any single failure rejects the whole step before any
gif.addFrame call); on success each loaded image is added in order with
delay 1100 - playbackSpeed and, once encoding finishes, the download is
triggered.  The load success of a frame source is the oracle `loadOk`. -/
def handleDownload (frames : List String) (gifWorkerUrl : Option String)
    (loadOk : String → Bool) (playbackSpeed : Int) : DownloadOutcome :=
  if frames.isEmpty || gifWorkerUrl.isNone then
    { encoderFrames := [], downloadTriggered := false,
      errorMsg := some (if gifWorkerUrl.isSome then "No frames to create a GIF from."
        else "GIF downloader is not ready.") }
  else if frames.all loadOk then
    { encoderFrames := frames.map (fun f => (f, 1100 - playbackSpeed)),
      downloadTriggered := true, errorMsg := none }
  else
    { encoderFrames := [], downloadTriggered := false,
      errorMsg := some "Failed to create GIF: Failed to load an image frame." }

/-- The generation calls of a mapped generation-call list are the list
itself. -/
theorem gensOf_map_toRemote (l : List GenCall) : gensOf (l.map GenCall.toRemote) = l := by
  induction l with
  | nil => rfl
  | cons c cs ih => cases c; simp [gensOf, GenCall.toRemote, ih]

/-- Loop invariant of genLoop on success: r frames and r generation calls
are produced; the first call carries the incoming previousFrame as
reference and the prompt composed for the starting index; every later call
carries exactly the frame produced by the preceding call as reference, and
the prompt composed for its loop index. -/
theorem genLoop_ok_spec (fr : Nat → List ResponsePart) (mkP : Nat → String) :
    ∀ (r i : Nat) (prev : Option String) (frames : List String) (calls : List GenCall),
      genLoop fr mkP i r prev = (.ok frames, calls) →
      frames.length = r ∧ calls.length = r ∧
      (∀ c, calls.get? 0 = some c → c.ref = prev ∧ c.prompt = mkP i) ∧
      (∀ j c, calls.get? (j + 1) = some c →
        c.ref = frames.get? j ∧ c.prompt = mkP (i + (j + 1))) := by
  intro r
  induction r with
  | zero =>
    intro i prev frames calls h
    simp only [genLoop, Prod.mk.injEq, Except.ok.injEq] at h
    obtain ⟨rfl, rfl⟩ := h
    simp
  | succ r ih =>
    intro i prev frames calls h
    simp only [genLoop] at h
    split at h
    · simp at h
    · rename_i f hg
      rcases hrec : genLoop fr mkP (i + 1) r (some f) with ⟨res, calls2⟩
      rw [hrec] at h
      cases res with
      | error e => simp [Except.map] at h
      | ok frames2 =>
        simp only [Except.map, Prod.mk.injEq, Except.ok.injEq] at h
        obtain ⟨rfl, rfl⟩ := h
        obtain ⟨ih1, ih2, ih3, ih4⟩ := ih (i + 1) (some f) frames2 calls2 hrec
        refine ⟨by simp [ih1], by simp [ih2], ?_, ?_⟩
        · intro c hc
          rw [List.get?_cons_zero] at hc
          cases hc
          exact ⟨rfl, rfl⟩
        · intro j c hc
          rw [List.get?_cons_succ] at hc
          cases j with
          | zero =>
            obtain ⟨href, hprompt⟩ := ih3 c hc
            exact ⟨by rw [href]; rfl, by rw [hprompt]⟩
          | succ j2 =>
            obtain ⟨href, hprompt⟩ := ih4 j2 c hc
            refine ⟨by rw [href]; rfl, ?_⟩
            rw [hprompt]
            congr 1
            omega

/-- Characterization of a successful storyboard-variant run with a
positive frame count: the storyboard call succeeded, the loop succeeded
from index 0 with no initial reference, and the trace's generation calls
are exactly the loop's calls. -/
theorem ImageService.storyboard_run_ok {env : Env} {mp : String} {fc : Int} {frames : List String}
    {trace : List RemoteCall} (hfc : 1 ≤ fc)
    (h : ImageService.generateAnimationFrames env mp fc = (.ok frames, trace)) :
    ∃ storyboard calls,
      ImageService.generateStoryboard env.storyboardResp fc = .ok storyboard ∧
      genLoop env.frameResp (ImageService.framePrompt fc storyboard) 0 fc.toNat none
        = (.ok frames, calls) ∧
      gensOf trace = calls := by
  unfold ImageService.generateAnimationFrames at h
  split at h
  · simp at h
  · rw [if_neg (show ¬fc < 1 by omega)] at h
    split at h
    · simp at h
    · rename_i storyboard hsb
      split at h
      · simp at h
      · rename_i frames2 calls hloop
        simp only [Prod.mk.injEq, Except.ok.injEq] at h
        obtain ⟨rfl, rfl⟩ := h
        exact ⟨storyboard, calls, hsb, hloop, by simp [gensOf, gensOf_map_toRemote]⟩

/-- Characterization of a successful sequential-variant (part_000) run
with a positive frame count: the loop succeeded from index 1 with no
initial reference, and the trace's generation calls are exactly the loop's
calls. -/
theorem Part000.sequential_run_ok {env : Env} {mp : String} {fc : Int} {frames : List String}
    {trace : List RemoteCall} (hfc : 1 ≤ fc)
    (h : Part000.generateAnimationFrames env mp fc = (.ok frames, trace)) :
    ∃ calls,
      genLoop env.frameResp (Part000.framePrompt mp fc) 1 fc.toNat none
        = (.ok frames, calls) ∧
      gensOf trace = calls := by
  unfold Part000.generateAnimationFrames at h
  split at h
  · simp at h
  · rw [if_neg (show ¬fc < 1 by omega)] at h
    split at h
    · simp at h
    · rename_i frames2 calls hloop
      simp only [Prod.mk.injEq, Except.ok.injEq] at h
      obtain ⟨rfl, rfl⟩ := h
      exact ⟨calls, hloop, gensOf_map_toRemote calls⟩

/-- A successful run's frames and generation calls form the linear
reference chain of length n: the call for frame 1 carries no reference
image, and the call for each later frame i carries exactly the frame
produced by call i-1 as its reference — no branching. -/
def chainOK (n : Nat) (frames : List String) (calls : List GenCall) : Prop :=
  calls.length = n ∧ frames.length = n ∧
  (∀ c, calls.get? 0 = some c → c.ref = none) ∧
  (∀ i c, calls.get? (i + 1) = some c → c.ref = frames.get? i)

/-- Claim C2: for every frame count N ≥ 1, in every successful run of
generateAnimationFrames (either variant) the generation call for frame 1
attaches no reference image, and for every i with 2 ≤ i ≤ N the call for
frame i attaches exactly the frame produced by call i-1 as its reference
image — a linear chain with no branching. -/
theorem c2_reference_chain (env : Env) (mp : String) (N : Int) (hN : 1 ≤ N) :
    (∀ frames trace, ImageService.generateAnimationFrames env mp N = (.ok frames, trace) →
      chainOK N.toNat frames (gensOf trace)) ∧
    (∀ frames trace, Part000.generateAnimationFrames env mp N = (.ok frames, trace) →
      chainOK N.toNat frames (gensOf trace)) := by
  constructor
  · intro frames trace h
    obtain ⟨sb, calls, hsb, hloop, hgens⟩ := ImageService.storyboard_run_ok hN h
    obtain ⟨h1, h2, h3, h4⟩ := genLoop_ok_spec _ _ _ _ _ _ _ hloop
    rw [hgens]
    exact ⟨h2, h1, fun c hc => (h3 c hc).1, fun i c hc => (h4 i c hc).1⟩
  · intro frames trace h
    obtain ⟨calls, hloop, hgens⟩ := Part000.sequential_run_ok hN h
    obtain ⟨h1, h2, h3, h4⟩ := genLoop_ok_spec _ _ _ _ _ _ _ hloop
    rw [hgens]
    exact ⟨h2, h1, fun c hc => (h3 c hc).1, fun i c hc => (h4 i c hc).1⟩

/-- A concrete environment on which both variants succeed with two frames:
API key set, storyboard response well-formed with two entries, every
image-generation response carrying inline data. -/
def envOk2 : Env :=
  { apiKey := some "k", aiInited := false,
    storyboardResp := some [⟨some (.jstr "n1"), some (.jstr "d1")⟩,
                            ⟨some (.jstr "n2"), some (.jstr "d2")⟩],
    frameResp := fun _ => [.inlineData "IMG"] }

/-- The storyboard-variant run on envOk2 with frame count 2. -/
def runOk2 : Except String (List String) × List RemoteCall :=
  ImageService.generateAnimationFrames envOk2 "p" 2

/-- The frames returned by runOk2. -/
def framesOk2 : List String :=
  match runOk2.1 with
  | .ok l => l
  | .error _ => []

/-- The sequential-variant (part_000) run on envOk2 with frame count 2. -/
def runOkP2 : Except String (List String) × List RemoteCall :=
  Part000.generateAnimationFrames envOk2 "q" 2

/-- The frames returned by runOkP2. -/
def framesOkP2 : List String :=
  match runOkP2.1 with
  | .ok l => l
  | .error _ => []

/-- Witness for C2: the concrete successful two-frame storyboard-variant
run satisfies the chain property. -/
theorem c2_reference_chain_witness : chainOK 2 framesOk2 (gensOf runOk2.2) :=
  (c2_reference_chain envOk2 "p" 2 (by decide)).1 framesOk2 runOk2.2 (by rfl)

/-- Claim C3: for every frame count N ≥ 1, generateAnimationFrames (either
variant) resolves only with a list of length exactly N — never a shorter
or longer one (any other outcome is a rejection, by the result type). -/
theorem c3_exact_length (env : Env) (mp : String) (N : Int) (hN : 1 ≤ N) :
    (∀ frames trace, ImageService.generateAnimationFrames env mp N = (.ok frames, trace) →
      (frames.length : Int) = N) ∧
    (∀ frames trace, Part000.generateAnimationFrames env mp N = (.ok frames, trace) →
      (frames.length : Int) = N) := by
  constructor
  · intro frames trace h
    obtain ⟨sb, calls, hsb, hloop, hgens⟩ := ImageService.storyboard_run_ok hN h
    have hlen := (genLoop_ok_spec _ _ _ _ _ _ _ hloop).1
    omega
  · intro frames trace h
    obtain ⟨calls, hloop, hgens⟩ := Part000.sequential_run_ok hN h
    have hlen := (genLoop_ok_spec _ _ _ _ _ _ _ hloop).1
    omega

/-- Witness for C3: the concrete two-frame runs return exactly two
frames (both variants). -/
theorem c3_exact_length_witness :
    (framesOk2.length : Int) = 2 ∧ (framesOkP2.length : Int) = 2 :=
  ⟨(c3_exact_length envOk2 "p" 2 (by decide)).1 framesOk2 runOk2.2 (by rfl),
   (c3_exact_length envOk2 "q" 2 (by decide)).2 framesOkP2 runOkP2.2 (by rfl)⟩

/-- Claim C4: in the sequential variant (part_000), for every frame count
N > 1, in every successful run the generation call for the last frame
uses the composed final-frame prompt — instructing the model to create the
absolute conclusion of the motion, fully completed and settled — and
attaches the frame produced by the previous call as its reference image. -/
theorem c4_final_frame (env : Env) (mp : String) (N : Int) (hN : 1 < N)
    (frames : List String) (trace : List RemoteCall)
    (h : Part000.generateAnimationFrames env mp N = (.ok frames, trace)) :
    ∃ c prevF, (gensOf trace).get? (N.toNat - 1) = some c ∧
      frames.get? (N.toNat - 2) = some prevF ∧
      c.ref = some prevF ∧
      c.prompt = styleInstruction ++ " This is the **final frame** of a " ++ toString N
        ++ "-frame animation of \"" ++ mp
        ++ "\". Using the provided image as the immediate previous frame, create the **absolute conclusion** of the motion. The action should be fully completed and settled." := by
  obtain ⟨calls, hloop, hgens⟩ := Part000.sequential_run_ok (by omega) h
  obtain ⟨h1, h2, h3, h4⟩ := genLoop_ok_spec _ _ _ _ _ _ _ hloop
  rw [hgens]
  cases hc : calls.get? (N.toNat - 1) with
  | none =>
    rw [List.get?_eq_none] at hc
    omega
  | some c =>
    have hidx : N.toNat - 2 + 1 = N.toNat - 1 := by omega
    have hc2 : calls.get? (N.toNat - 2 + 1) = some c := by rw [hidx]; exact hc
    obtain ⟨href, hprompt⟩ := h4 (N.toNat - 2) c hc2
    cases hp : frames.get? (N.toNat - 2) with
    | none =>
      rw [List.get?_eq_none] at hp
      omega
    | some prevF =>
      refine ⟨c, prevF, rfl, rfl, ?_, ?_⟩
      · rw [href, hp]
      · rw [hprompt]
        have hii : 1 + (N.toNat - 2 + 1) = N.toNat := by omega
        rw [hii]
        have hcond : ((N.toNat : Int) = N ∧ 1 < N) := ⟨Int.toNat_of_nonneg (by omega), hN⟩
        unfold Part000.framePrompt
        rw [if_neg (show ¬N.toNat = 1 by omega), if_pos hcond]

/-- Witness for C4: the concrete successful two-frame part_000 run. -/
theorem c4_final_frame_witness :
    ∃ c prevF, (gensOf runOkP2.2).get? 1 = some c ∧
      framesOkP2.get? 0 = some prevF ∧
      c.ref = some prevF ∧
      c.prompt = styleInstruction ++ " This is the **final frame** of a " ++ toString (2 : Int)
        ++ "-frame animation of \"" ++ "q"
        ++ "\". Using the provided image as the immediate previous frame, create the **absolute conclusion** of the motion. The action should be fully completed and settled." :=
  c4_final_frame envOk2 "q" 2 (by decide) framesOkP2 runOkP2.2 (by rfl)

/-- The environment with no API key and no previously initialized client,
the storyboard response absent, and empty image responses. -/
def envNoKey : Env :=
  { apiKey := none, aiInited := false, storyboardResp := none, frameResp := fun _ => [] }

/-- The environment with an API key configured but every remote call left
unexercised (frame count 0 never reaches them). -/
def envKey0 : Env :=
  { apiKey := some "k", aiInited := false, storyboardResp := none, frameResp := fun _ => [] }

/-- Counterexample to claim C5 as stated: with the API credential absent
and no client previously initialized, a frame-count-0 call does not return
the empty sequence — it fails with the missing-credential error, because
the client is resolved before the frame-count guard. -/
theorem c5_counterexample :
    ImageService.generateAnimationFrames envNoKey "p" 0
      = (.error "API key is not configured. Please set the API_KEY environment variable.", []) ∧
    exceptIsOk (ImageService.generateAnimationFrames envNoKey "p" 0).1 = false := by
  constructor <;> rfl

/-- Claim C5 as amended: for every frame count below 1, provided the API
client resolves (credential present or client already initialized),
generateAnimationFrames (either variant) returns an empty sequence and
makes no remote calls — no refine, no storyboard, no frame generation. -/
theorem c5_empty_short_circuit (env : Env) (mp : String) (fc : Int) (hfc : fc < 1)
    (hai : getAI env.apiKey env.aiInited = .ok ()) :
    ImageService.generateAnimationFrames env mp fc = (.ok [], []) ∧
    Part000.generateAnimationFrames env mp fc = (.ok [], []) := by
  constructor
  · simp only [ImageService.generateAnimationFrames, hai, if_pos hfc]
  · simp only [Part000.generateAnimationFrames, hai, if_pos hfc]

/-- Witness for the amended C5: frame count 0 with a configured key gives
the empty sequence and an empty remote-call trace. -/
theorem c5_empty_short_circuit_witness :
    ImageService.generateAnimationFrames envKey0 "p" 0 = (.ok [], []) ∧
    Part000.generateAnimationFrames envKey0 "p" 0 = (.ok [], []) :=
  c5_empty_short_circuit envKey0 "p" 0 (by decide) (by rfl)

/-- Claim C10: generateAnimationFrames (either variant) resolves the API
client before checking the frame count, so with the credential absent from
the environment and no client previously initialized, any call with frame
count below 1 throws the missing-credential configuration error instead of
returning the empty sequence. -/
theorem c10_client_before_count (mp : String) (sb : Option (List SBFrame))
    (fr : Nat → List ResponsePart) (fc : Int) (_hfc : fc < 1) :
    ImageService.generateAnimationFrames ⟨none, false, sb, fr⟩ mp fc
      = (.error "API key is not configured. Please set the API_KEY environment variable.", []) ∧
    Part000.generateAnimationFrames ⟨none, false, sb, fr⟩ mp fc
      = (.error "API key is not configured. Please set the API_KEY environment variable.", []) := by
  constructor <;> rfl

/-- Witness for C10 at frame count 0. -/
theorem c10_client_before_count_witness :
    ImageService.generateAnimationFrames ⟨none, false, none, fun _ => []⟩ "p" 0
      = (.error "API key is not configured. Please set the API_KEY environment variable.", []) ∧
    Part000.generateAnimationFrames ⟨none, false, none, fun _ => []⟩ "p" 0
      = (.error "API key is not configured. Please set the API_KEY environment variable.", []) :=
  c10_client_before_count "p" none (fun _ => []) 0 (by decide)

/-- When some storyboard entry has a missing, non-string, or empty frame
description, the description mapping fails. -/
theorem mapDescriptions_error (sbs : List SBFrame)
    (hbad : ∃ f ∈ sbs, badDescription f = true) :
    ∃ msg, mapDescriptions sbs = .error msg := by
  induction sbs with
  | nil =>
    rcases hbad with ⟨f, hf, _⟩
    cases hf
  | cons f0 rest ih =>
    rcases hd : f0.frame_description with _ | v
    · exact ⟨"Storyboard generation failed: A frame description was missing or not a string.", by simp [mapDescriptions, hd]⟩
    · rcases v with s | _
      · by_cases hse : s.isEmpty = true
        · exact ⟨"Storyboard generation failed: A frame description was missing or not a string.", by simp [mapDescriptions, hd, hse]⟩
        · have hbad2 : ∃ f ∈ rest, badDescription f = true := by
            rcases hbad with ⟨f, hf, hb⟩
            rcases List.mem_cons.mp hf with rfl | hmem
            · exact absurd hb (by simp [badDescription, hd, hse])
            · exact ⟨f, hmem, hb⟩
          obtain ⟨msg, hmsg⟩ := ih hbad2
          refine ⟨msg, ?_⟩
          simp [mapDescriptions, hd, hse, hmsg, Except.map]
      · exact ⟨"Storyboard generation failed: A frame description was missing or not a string.", by simp [mapDescriptions, hd]⟩

/-- Whatever the validation failure, generateStoryboard returns an error:
the catch only rewrites the message. -/
theorem generateStoryboard_error_of_bad (fc : Int) (sbs : List SBFrame)
    (hbad : ∃ f ∈ sbs, badDescription f = true) :
    ∃ e, ImageService.generateStoryboard (some sbs) fc = .error e := by
  unfold ImageService.generateStoryboard
  cases hval : storyboardValidate fc sbs with
  | error msg =>
    by_cases hjp : strContains msg "JSON.parse" = true
    · exact ⟨"Failed to generate animation storyboard. The planning AI returned an invalid JSON format.",
        by simp [hval, hjp]⟩
    · exact ⟨"Failed to generate animation storyboard. The planning AI may be experiencing issues.",
        by simp [hval, hjp]⟩
  | ok ds =>
    exfalso
    unfold storyboardValidate at hval
    split at hval
    · obtain ⟨msg, hm⟩ := mapDescriptions_error sbs hbad
      rw [hm] at hval
      cases hval
    · cases hval

/-- Claim C6: in the storyboard variant, when any storyboard entry's frame
description is missing, empty, or not a string, the run fails before any
frame generation is attempted: the result is an error, no image-generation
call appears in the trace, and no partial frame sequence is returned. -/
theorem c6_fail_before_generation (env : Env) (mp : String) (N : Int) (sbs : List SBFrame)
    (hN : 1 ≤ N) (hsb : env.storyboardResp = some sbs)
    (hbad : ∃ f ∈ sbs, badDescription f = true) :
    (∃ e, (ImageService.generateAnimationFrames env mp N).1 = .error e) ∧
    gensOf (ImageService.generateAnimationFrames env mp N).2 = [] := by
  unfold ImageService.generateAnimationFrames
  cases hai : getAI env.apiKey env.aiInited with
  | error e => exact ⟨⟨e, rfl⟩, rfl⟩
  | ok u =>
    obtain ⟨e, he⟩ := generateStoryboard_error_of_bad N sbs hbad
    rw [← hsb] at he
    simp only [he, if_neg (show ¬N < 1 by omega)]
    exact ⟨⟨_, rfl⟩, rfl⟩

/-- The environment of the C6 witness: a configured key and a storyboard
response whose single entry has an empty frame description. -/
def envBadSB : Env :=
  { apiKey := some "k", aiInited := false,
    storyboardResp := some [⟨some (.jstr "n"), some (.jstr "")⟩],
    frameResp := fun _ => [.inlineData "IMG"] }

/-- Witness for C6 at the concrete bad storyboard. -/
theorem c6_fail_before_generation_witness :
    (∃ e, (ImageService.generateAnimationFrames envBadSB "p" 1).1 = .error e) ∧
    gensOf (ImageService.generateAnimationFrames envBadSB "p" 1).2 = [] :=
  c6_fail_before_generation envBadSB "p" 1 [⟨some (.jstr "n"), some (.jstr "")⟩]
    (by decide) (by rfl) ⟨⟨some (.jstr "n"), some (.jstr "")⟩, by simp, by rfl⟩

/-- Claim C1 (the code, not the claim, is at fault): with frame count 3 and
a well-formed planner array of length 2, the run does fail, and the length
validation inside generateStoryboard builds the descriptive error naming
expected 3 and actual 2 — but that function's own catch intercepts it, so
the error generateAnimationFrames actually throws to its caller is the
generic planner-failure message, which names neither count. -/
theorem c1_length_error_swallowed :
    storyboardValidate 3
        [⟨some (.jstr "n1"), some (.jstr "d1")⟩, ⟨some (.jstr "n2"), some (.jstr "d2")⟩]
      = .error "Storyboard generation failed: AI returned an invalid format or wrong number of frames. Expected 3, got 2." ∧
    ImageService.generateAnimationFrames
        { apiKey := some "k", aiInited := false,
          storyboardResp := some [⟨some (.jstr "n1"), some (.jstr "d1")⟩,
                                  ⟨some (.jstr "n2"), some (.jstr "d2")⟩],
          frameResp := fun _ => [.inlineData "IMG"] } "A ball bouncing" 3
      = (.error "Failed to generate animation: Failed to generate animation storyboard. The planning AI may be experiencing issues.",
         [.storyboardCall "A ball bouncing" 3]) := by
  constructor <;> rfl

/-- extractImage returns the first inline image of the part list as a PNG
data URL, and fails naming the prompt when no part carries inline data. -/
theorem extractImage_spec (parts : List ResponsePart) (prompt : String) :
    (∀ d, parts.findSome? ResponsePart.inlineOf = some d →
      extractImage parts prompt = .ok ("data:image/png;base64," ++ d)) ∧
    (parts.findSome? ResponsePart.inlineOf = none →
      extractImage parts prompt
        = .error ("Image generation failed for prompt: \"" ++ prompt ++ "\"")) := by
  induction parts with
  | nil =>
    constructor
    · intro d hd
      simp [List.findSome?] at hd
    · intro _
      rfl
  | cons p rest ih =>
    cases p with
    | inlineData d0 =>
      constructor
      · intro d hd
        simp [List.findSome?_cons, ResponsePart.inlineOf] at hd
        rw [hd]
        rfl
      · intro hnone
        simp [List.findSome?_cons, ResponsePart.inlineOf] at hnone
    | textPart t =>
      constructor
      · intro d hd
        simp only [List.findSome?_cons, ResponsePart.inlineOf] at hd
        exact ih.1 d hd
      · intro hnone
        simp only [List.findSome?_cons, ResponsePart.inlineOf] at hnone
        exact ih.2 hnone

/-- Claim C7: for every response of the image-generation call (with any
reference image that decodes), generateFrame returns the first response
part carrying inline image data, re-encoded as a PNG data URL — the string
"data:image/png;base64," followed by the returned bytes — and when no part
carries inline data it throws the error naming the failing frame's
composed prompt (which states the frame index within the orchestrators). -/
theorem c7_first_inline_or_error (resp : List ResponsePart) (prompt : String)
    (ref : Option String) (href : ∀ r, ref = some r → ∃ v, base64ToPart r = .ok v) :
    (∀ d, resp.findSome? ResponsePart.inlineOf = some d →
      generateFrame resp prompt ref = .ok ("data:image/png;base64," ++ d)) ∧
    (resp.findSome? ResponsePart.inlineOf = none →
      generateFrame resp prompt ref
        = .error ("Image generation failed for prompt: \"" ++ prompt ++ "\"")) := by
  have hext : generateFrame resp prompt ref = extractImage resp prompt := by
    cases ref with
    | none => rfl
    | some r =>
      obtain ⟨v, hv⟩ := href r rfl
      simp [generateFrame, hv]
  rw [hext]
  exact extractImage_spec resp prompt

/-- Witness for C7: a concrete response whose second part carries the
inline data, with a decodable reference attached. -/
theorem c7_first_inline_or_error_witness :
    generateFrame [.textPart "t", .inlineData "AA"] "p" (some "data:image/png;base64,BB")
      = .ok ("data:image/png;base64," ++ "AA") :=
  (c7_first_inline_or_error [.textPart "t", .inlineData "AA"] "p"
      (some "data:image/png;base64,BB")
      (fun r hr => by cases hr; exact ⟨("BB", "image/png"), rfl⟩)).1 "AA" rfl

/-- Claim C8: exporting a nonempty sequence of frames that all load hands
the encoder exactly those frames, in original order, each tagged with the
delay 1100 minus the configured playback speed — the same period the
playback timer uses — and triggers the download. -/
theorem c8_export_frames (frames : List String) (url : Option String)
    (loadOk : String → Bool) (speed : Int)
    (hne : frames ≠ []) (hurl : url.isSome = true)
    (hload : ∀ f ∈ frames, loadOk f = true) :
    (handleDownload frames url loadOk speed).encoderFrames
      = frames.map (fun f => (f, intervalDuration speed)) ∧
    (handleDownload frames url loadOk speed).encoderFrames.length = frames.length ∧
    (handleDownload frames url loadOk speed).downloadTriggered = true ∧
    intervalDuration speed = 1100 - speed := by
  cases frames with
  | nil => exact absurd rfl hne
  | cons f fs =>
    cases url with
    | none => simp at hurl
    | some u =>
      have hall : (f :: fs).all loadOk = true := List.all_eq_true.mpr hload
      simp [handleDownload, hall, intervalDuration]

/-- Witness for C8 at a concrete one-frame export. -/
theorem c8_export_frames_witness :
    (handleDownload ["a"] (some "w") (fun _ => true) 500).encoderFrames
      = ["a"].map (fun f => (f, intervalDuration 500)) ∧
    (handleDownload ["a"] (some "w") (fun _ => true) 500).encoderFrames.length
      = (["a"] : List String).length ∧
    (handleDownload ["a"] (some "w") (fun _ => true) 500).downloadTriggered = true ∧
    intervalDuration 500 = 1100 - 500 :=
  c8_export_frames ["a"] (some "w") (fun _ => true) 500 (by simp) rfl (fun _ _ => rfl)

/-- Claim C9: when any single frame image fails to load, the export fails
as a whole — nothing is handed to the encoder and no download is
triggered, so no partial GIF is produced. -/
theorem c9_no_partial_export (frames : List String) (url : Option String)
    (loadOk : String → Bool) (speed : Int)
    (hbad : ∃ f ∈ frames, loadOk f = false) :
    (handleDownload frames url loadOk speed).encoderFrames = [] ∧
    (handleDownload frames url loadOk speed).downloadTriggered = false := by
  unfold handleDownload
  split_ifs with h1 h2 h3
  · exact ⟨rfl, rfl⟩
  · exact ⟨rfl, rfl⟩
  · rcases hbad with ⟨f, hf, hb⟩
    rw [List.all_eq_true] at h3
    rw [h3 f hf] at hb
    cases hb
  · exact ⟨rfl, rfl⟩

/-- Witness for C9 at a concrete failing frame load. -/
theorem c9_no_partial_export_witness :
    (handleDownload ["a"] (some "w") (fun _ => false) 0).encoderFrames = [] ∧
    (handleDownload ["a"] (some "w") (fun _ => false) 0).downloadTriggered = false :=
  c9_no_partial_export ["a"] (some "w") (fun _ => false) 0 ⟨"a", by simp, rfl⟩
